import Mathlib

/-!
Shallow embedding of the phishing-URL detector (`feature.py`, `app.py`).

The `FeatureExtraction` class fetches evidence about a URL (HTTP response,
parsed DOM, WHOIS record, DNS resolution, third-party lookups) and computes
30 trinary indicators.  Here the fetched evidence is made explicit as a
`Bundle` (the spec's FetchBundle): every piece is independently
present-or-absent, and each indicator is a pure total function of the URL,
the bundle, and the current date (read by `AgeofDomain` via `date.today()`).

Python-level semantics that the embedding reproduces:
* `x in s` (substring test, empty pattern matches) — `substr`;
* `socket.inet_aton` applied to a whole string — `inetAtonOk`
  (BSD/glibc semantics: 1–4 dot-separated C numerals, trailing text
  accepted when the numeral is terminated by whitespace);
* `urllib.parse.urlparse` scheme/netloc extraction — `urlsplitModel`
  (CPython: tab/CR/LF removal, scheme validation, `//`-introduced netloc,
  IPv6-bracket mismatch raising `ValueError`, modelled as `none`);
* truthiness: `requests.Response.__bool__` is `status_code < 400`;
  a BeautifulSoup `Tag` defines `__bool__` as constantly `True`, so
  `not self.soup` is `soup is None`;
* the float percentages `valid/total*100` compared against `22.0` etc. are
  modelled by exact integer comparisons `valid*100 < k*total`
  (with Python's explicit `if total else 0` zero-denominator rule).
-/

/-- Boolean infix test on character lists. -/
def listInfix (p s : List Char) : Bool :=
  s.tails.any (fun t => p.isPrefixOf t)

/-- Python substring test `pat in s` (empty pattern always matches). -/
def substr (pat s : String) : Bool :=
  listInfix pat.toList s.toList

/-- Python `str.lower()` (character-wise; ASCII case folding). -/
def pyLower (s : String) : String :=
  String.mk (s.toList.map Char.toLower)

/-- Whitespace as C `isspace` / Python `\s` sees it (ASCII range). -/
def isPySpace (c : Char) : Bool :=
  c = ' ' || c = '\t' || c = '\n' || c = '\r' || c = '\x0b' || c = '\x0c'

/-- Split a character list on a separator character (like `str.split(sep)`:
the result always has one more part than there are separators). -/
def splitOnC (sep : Char) : List Char → List (List Char)
  | [] => [[]]
  | c :: cs =>
    if c = sep then [] :: splitOnC sep cs
    else
      match splitOnC sep cs with
      | [] => [[c]]
      | p :: ps => (c :: p) :: ps

/-- Hexadecimal digit value. -/
def hexDigitVal (c : Char) : Nat :=
  if c.isDigit then c.toNat - 48
  else if 'a' ≤ c ∧ c ≤ 'f' then c.toNat - 87
  else c.toNat - 55

def isOctDigitC (c : Char) : Bool := '0' ≤ c && c ≤ '7'

def isHexDigitC (c : Char) : Bool :=
  c.isDigit || ('a' ≤ c && c ≤ 'f') || ('A' ≤ c && c ≤ 'F')

def digitsVal (base : Nat) (f : Char → Nat) (cs : List Char) : Nat :=
  cs.foldl (fun a c => a * base + f c) 0

/-- One dot-separated component of an `inet_aton` address, parsed as a C
numeral (`strtoul` base 0): hex with `0x`, octal with leading `0`, else
decimal.  `none` when the component is empty or has a stray character. -/
def parsePart : List Char → Option Nat
  | '0' :: 'x' :: rest =>
    if rest ≠ [] ∧ rest.all isHexDigitC then some (digitsVal 16 hexDigitVal rest) else none
  | '0' :: 'X' :: rest =>
    if rest ≠ [] ∧ rest.all isHexDigitC then some (digitsVal 16 hexDigitVal rest) else none
  | '0' :: rest =>
    if rest.all isOctDigitC then some (digitsVal 8 hexDigitVal ('0' :: rest)) else none
  | cs =>
    if cs ≠ [] ∧ cs.all Char.isDigit then some (digitsVal 10 hexDigitVal cs) else none

/-- Parse every component or fail. -/
def parseParts : List (List Char) → Option (List Nat)
  | [] => some []
  | p :: ps =>
    match parsePart p, parseParts ps with
    | some v, some vs => some (v :: vs)
    | _, _ => none

/-- `socket.inet_aton s` succeeds: the longest whitespace-free prefix is a
valid 1-to-4-component dotted C numeral within the classic BSD bounds
(every component but the last at most 255, the last filling the remaining
bytes); a terminating whitespace character lets trailing text pass. -/
def inetAtonOk (s : String) : Bool :=
  let core := s.toList.takeWhile (fun c => !isPySpace c)
  match parseParts (splitOnC '.' core) with
  | none => false
  | some [a] => decide (a < 4294967296)
  | some [a, b] => decide (a ≤ 255 ∧ b < 16777216)
  | some [a, b, c] => decide (a ≤ 255 ∧ b ≤ 255 ∧ c < 65536)
  | some [a, b, c, d] => decide (a ≤ 255 ∧ b ≤ 255 ∧ c ≤ 255 ∧ d ≤ 255)
  | some _ => false

/-- Scheme and network location as `urlparse` returns them. -/
structure UrlParts where
  scheme : String
  netloc : String
deriving DecidableEq

def isSchemeChar (c : Char) : Bool :=
  c.isAlpha || c.isDigit || c = '+' || c = '-' || c = '.'

/-- CPython `urlsplit` restricted to the fields the program uses: remove
tab/CR/LF, split off a valid `scheme:` prefix (lowercased), and read the
netloc after `//` up to `/`, `?` or `#`.  A mismatched IPv6 bracket raises
`ValueError`, modelled as `none`. -/
def urlsplitModel (url : String) : Option UrlParts :=
  let cs := url.toList.filter (fun c => c ≠ '\t' ∧ c ≠ '\r' ∧ c ≠ '\n')
  let (scheme, rest) :=
    match cs.findIdx? (· = ':') with
    | some i =>
      if 0 < i ∧ (cs.headD ' ').isAlpha ∧ (cs.take i).all isSchemeChar then
        ((cs.take i).map Char.toLower, cs.drop (i + 1))
      else ([], cs)
    | none => ([], cs)
  if "//".toList.isPrefixOf rest then
    let nl := (rest.drop 2).takeWhile (fun c => c ≠ '/' ∧ c ≠ '?' ∧ c ≠ '#')
    if (nl.contains '[' ∧ ¬ nl.contains ']') ∨ (nl.contains ']' ∧ ¬ nl.contains '[') then
      none
    else some ⟨String.mk scheme, String.mk nl⟩
  else some ⟨String.mk scheme, ""⟩

/-- Calendar date as the program uses it (only `.year` and `.month`). -/
structure PyDate where
  year : Int
  month : Int
deriving DecidableEq

/-- A WHOIS date attribute: `None`, a single datetime, or a list of them
(the code takes element `[0]` of a list, raising on an empty one). -/
inductive DateField where
  | absent
  | one (d : PyDate)
  | many (ds : List PyDate)
deriving DecidableEq

/-- The date the code ends up using, `none` when the access raises
(`None.year` or `[][0]`). -/
def DateField.norm : DateField → Option PyDate
  | .absent => none
  | .one d => some d
  | .many [] => none
  | .many (d :: _) => some d

/-- The WHOIS evidence: the parsed date attributes plus the full
`str(whois_response)` text used by `AbnormalURL`. -/
structure WhoisRec where
  raw : String
  creation : DateField
  expiration : DateField
deriving DecidableEq

/-- The HTTP evidence: status code, body text, and redirect-chain length
(`len(response.history)`). -/
structure Response where
  status : Nat
  text : String
  history : Nat
deriving DecidableEq

/-- `bool(response)` for a `requests.Response`: status below 400. -/
def respOk : Option Response → Bool
  | none => false
  | some r => r.status < 400

/-- A node of the parsed DOM: an element with tag name, attributes in
document order, and children, or a text node. -/
inductive Node where
  | elem (tag : String) (attrs : List (String × String)) (children : List Node)
  | txt (s : String)

/-- Attribute lookup, first occurrence wins (as `html.parser` keeps the
first duplicate attribute); empty string when absent. -/
def attrOf (n : Node) (name : String) : String :=
  match n with
  | .txt _ => ""
  | .elem _ attrs _ => ((attrs.find? (fun a => a.1 = name)).map (·.2)).getD ""

def hasAttr (n : Node) (name : String) : Bool :=
  match n with
  | .txt _ => false
  | .elem _ attrs _ => attrs.any (fun a => a.1 = name)

def tagOf : Node → String
  | .txt _ => ""
  | .elem t _ _ => t

mutual
/-- `find_all(tag, attr=True)` on one node: matching descendants (and the
node itself) in document order; `attr = none` drops the attribute filter. -/
def Node.findAll (t : String) (a : Option String) : Node → List Node
  | .txt _ => []
  | .elem tag attrs cs =>
    (if tag = t ∧ (match a with | none => true | some nm => hasAttr (.elem tag attrs cs) nm) = true
     then [Node.elem tag attrs cs] else []) ++ Node.findAllL t a cs
/-- `find_all` over a list of sibling nodes. -/
def Node.findAllL (t : String) (a : Option String) : List Node → List Node
  | [] => []
  | n :: ns => Node.findAll t a n ++ Node.findAllL t a ns
end

mutual
/-- The `.text` of a node: all descendant strings concatenated. -/
def Node.textContent : Node → String
  | .txt s => s
  | .elem _ _ cs => Node.textContentL cs
def Node.textContentL : List Node → String
  | [] => ""
  | n :: ns => Node.textContent n ++ Node.textContentL ns
end

/-- The soup is the list of root nodes of the parsed document. -/
abbrev Dom := List Node

/-- The spec's FetchBundle: every piece of external evidence, each
independently present or absent.  `dns` is the outcome of resolving the
site's domain (`socket.gethostbyname`); `alexa`, `pagerank` and `google`
are the third-party lookups, `Except.error` when the service call raised.
`detailsError` models a failure inside `fetch_url_details` after a
successful DNS resolution. -/
structure Bundle where
  response : Option Response
  soup : Option Dom
  whois : Option WhoisRec
  dns : Option String
  alexa : Except Unit (Option Int)
  pagerank : Except Unit (Option Int)
  google : Except Unit (List String)
  detailsError : Bool

/-- One request's full input: the submitted URL, the fetched evidence and
the current date (`date.today()`). -/
structure Ctx where
  url : String
  bundle : Bundle
  today : PyDate

/-- `self.domain = urlparse(url).netloc`, the empty string when `urlparse`
raises. -/
def Ctx.domain (ctx : Ctx) : String :=
  match urlsplitModel ctx.url with
  | some p => p.netloc
  | none => ""

/-- First index at which `pat` occurs in `s` (Python `str.find`). -/
def strFindIdx (pat s : List Char) : Option Nat :=
  (List.range (s.length + 1)).find? (fun i => pat.isPrefixOf (s.drop i))

/-- Percentage comparison `valid/total*100 < k` with Python's explicit
zero-denominator rule (`percentage = 0` when `total == 0`), in exact
integer arithmetic. -/
def pctLt (valid total k : Nat) : Bool :=
  if total = 0 then decide (0 < k) else decide (valid * 100 < k * total)

/-- The shared threshold shape of the three ratio indicators:
`< lo → 1`, `< hi → 0`, otherwise `-1`. -/
def triThresh (lo hi valid total : Nat) : Int :=
  if pctLt valid total lo then 1 else if pctLt valid total hi then 0 else -1

/-- One line matches `<script>.+onmouseover.+</script>` (the `.+` gaps are
nonempty and newline-free, so a whole match always sits inside one line). -/
def lineScriptMatch (l : List Char) : Bool :=
  l.tails.any fun t1 =>
    "<script>".toList.isPrefixOf t1 &&
    (((t1.drop 8).tails.drop 1).any fun t2 =>
      "onmouseover".toList.isPrefixOf t2 &&
      (((t2.drop 11).tails.drop 1).any fun t3 => "</script>".toList.isPrefixOf t3))

/-- `re.search(r"<script>.+onmouseover.+</script>", s)` succeeds. -/
def reScriptMouseover (s : String) : Bool :=
  (s.splitOn "\n").any (fun line => lineScriptMatch line.toList)

/-- `re.search(r"event.button\s*==\s*2", s)` succeeds: the unescaped `.`
matches any non-newline character, and each `\s*` absorbs exactly the
maximal whitespace run (the following literal starts non-whitespace). -/
def reEventButton2 (s : String) : Bool :=
  s.toList.tails.any fun t =>
    "event".toList.isPrefixOf t &&
    (match t.drop 5 with
     | [] => false
     | c :: rest =>
       (c != '\n') && "button".toList.isPrefixOf rest &&
       (let r2 := (rest.drop 6).dropWhile isPySpace
        "==".toList.isPrefixOf r2 &&
        (let r3 := (r2.drop 2).dropWhile isPySpace
         r3.headD ' ' == '2')))

/-- A match of `<a\s+href=` (IGNORECASE) starts at this suffix. -/
def aHrefAt (t : List Char) : Bool :=
  let lt := t.map Char.toLower
  "<a".toList.isPrefixOf lt &&
  (let r := lt.drop 2
   !(r.takeWhile isPySpace).isEmpty && "href=".toList.isPrefixOf (r.dropWhile isPySpace))

/-- `len(re.findall(r"<a\s+href=", s, re.IGNORECASE))`: matches cannot
overlap (no `<` occurs inside a match after its first character), so the
non-overlapping count equals the number of matching start positions. -/
def countAHref (s : String) : Nat :=
  s.toList.tails.countP aHrefAt

/-- The `img`/`audio`/`embed`/`iframe` elements with a `src` attribute, in
the order the two nested loops of `RequestURL` visit them. -/
def srcMediaElems (roots : Dom) : List Node :=
  Node.findAllL "img" (some "src") roots ++ Node.findAllL "audio" (some "src") roots ++
    Node.findAllL "embed" (some "src") roots ++ Node.findAllL "iframe" (some "src") roots

/-- Elements among `es` whose attribute `a` contains the URL or the domain
as a substring (the code's "valid", i.e. same-site, resources). -/
def onSiteCount (ctx : Ctx) (a : String) (es : List Node) : Nat :=
  es.countP (fun n => substr ctx.url (attrOf n a) || substr ctx.domain (attrOf n a))

/-- Elements among `es` whose attribute `a` contains neither the URL nor
the domain: the off-site resources the spec speaks about. -/
def offSiteCount (ctx : Ctx) (a : String) (es : List Node) : Nat :=
  es.countP (fun n => !(substr ctx.url (attrOf n a) || substr ctx.domain (attrOf n a)))

/-- 1. `UsingIp`: `socket.inet_aton(self.url)` succeeds → -1, else
(exception) → 1.  Note the argument is the whole URL string. -/
def UsingIp (ctx : Ctx) : Int :=
  if inetAtonOk ctx.url then -1 else 1

/-- 2. `longUrl`: length below 60 → 1, 60 to 100 → 0, above → -1. -/
def longUrl (ctx : Ctx) : Int :=
  if ctx.url.length < 60 then 1
  else if ctx.url.length ≤ 100 then 0
  else -1

/-- 3. `shortUrl`: known shortener pattern found in the URL → -1. -/
def shortUrl (ctx : Ctx) : Int :=
  if substr "bit.ly" ctx.url || substr "goo.gl" ctx.url ||
      substr "shorte.st" ctx.url || substr "tinyurl" ctx.url then -1
  else 1

/-- 4. `symbol`: "@" present in the URL → -1. -/
def symbol (ctx : Ctx) : Int :=
  if substr "@" ctx.url then -1 else 1

/-- 5. `redirecting`: a second "//" found at or after three characters past
the first "://" → -1. -/
def redirecting (ctx : Ctx) : Int :=
  let cs := ctx.url.toList
  if listInfix "://".toList cs then
    match strFindIdx "://".toList cs with
    | some i => if listInfix "//".toList (cs.drop (i + 3)) then -1 else 1
    | none => 1
  else 1

/-- 6. `prefixSuffix`: hyphen in the domain → -1. -/
def prefixSuffix (ctx : Ctx) : Int :=
  if substr "-" ctx.domain then -1 else 1

/-- 7. `SubDomains`: dot count of the domain (1 → 1, 2 → 0, else -1). -/
def SubDomains (ctx : Ctx) : Int :=
  let n := ctx.domain.toList.count '.'
  if n = 1 then 1 else if n = 2 then 0 else -1

/-- 8. `Https`: parsed scheme is exactly "https" → 1, else -1 (also -1
when `urlparse` raised, leaving `self.urlparse_obj` as `None`). -/
def Https (ctx : Ctx) : Int :=
  match urlsplitModel ctx.url with
  | some p => if p.scheme = "https" then 1 else -1
  | none => -1

/-- 9. `DomainRegLen`: months from creation to expiration at least 12 → 1;
any missing piece or raised access → -1. -/
def DomainRegLen (ctx : Ctx) : Int :=
  match ctx.bundle.whois with
  | none => -1
  | some w =>
    match w.expiration.norm, w.creation.norm with
    | some e, some c =>
      if (e.year - c.year) * 12 + (e.month - c.month) ≥ 12 then 1 else -1
    | _, _ => -1

/-- 10. `Favicon`: some `<link href>` under the first `<head>` whose href
contains the URL or the domain → 1, else -1 (also no DOM / no head). -/
def Favicon (ctx : Ctx) : Int :=
  match ctx.bundle.soup with
  | none => -1
  | some roots =>
    match (Node.findAllL "head" none roots).head? with
    | none => -1
    | some (.txt _) => -1
    | some (.elem _ _ cs) =>
      if (Node.findAllL "link" (some "href") cs).any
          (fun n => substr ctx.url (attrOf n "href") || substr ctx.domain (attrOf n "href"))
      then 1 else -1

/-- 11. `NonStdPort`: colon present in the domain → -1. -/
def NonStdPort (ctx : Ctx) : Int :=
  if substr ":" ctx.domain then -1 else 1

/-- 12. `HTTPSDomainURL`: literal "https" inside the lowercased domain → -1. -/
def HTTPSDomainURL (ctx : Ctx) : Int :=
  if substr "https" (pyLower ctx.domain) then -1 else 1

/-- 13. `RequestURL`: share of `img`/`audio`/`embed`/`iframe` `src` values
containing the URL or domain (the code's "valid" count): below 22% → 1,
below 61% → 0, else -1; no DOM → -1. -/
def RequestURL (ctx : Ctx) : Int :=
  match ctx.bundle.soup with
  | none => -1
  | some roots =>
    let es := srcMediaElems roots
    triThresh 22 61 (onSiteCount ctx "src" es) es.length

/-- 14. `AnchorURL`: share of `<a href>` values that contain "#",
"javascript", "mailto" (case-insensitively) or neither the URL nor the
domain: below 31% → 1, below 67% → 0, else -1; no DOM → -1. -/
def AnchorURL (ctx : Ctx) : Int :=
  match ctx.bundle.soup with
  | none => -1
  | some roots =>
    let anchors := Node.findAllL "a" (some "href") roots
    let bad := anchors.countP (fun n =>
      let h := attrOf n "href"
      substr "#" h || substr "javascript" (pyLower h) || substr "mailto" (pyLower h) ||
        (!substr ctx.url h && !substr ctx.domain h))
    triThresh 31 67 bad anchors.length

/-- 15. `LinksInScriptTags`: share of `link`/`script` `src` values
containing the URL or domain: below 17% → 1, below 81% → 0, else -1;
no DOM → -1. -/
def LinksInScriptTags (ctx : Ctx) : Int :=
  match ctx.bundle.soup with
  | none => -1
  | some roots =>
    let es := Node.findAllL "link" (some "src") roots ++ Node.findAllL "script" (some "src") roots
    triThresh 17 81 (onSiteCount ctx "src" es) es.length

/-- 16. `ServerFormHandler`: decided by the first `<form action>` alone —
empty or "about:blank" action → -1, action containing neither the URL nor
the domain → 0, otherwise 1; no such form → 1; no DOM → -1. -/
def ServerFormHandler (ctx : Ctx) : Int :=
  match ctx.bundle.soup with
  | none => -1
  | some roots =>
    match Node.findAllL "form" (some "action") roots with
    | [] => 1
    | f :: _ =>
      let a := attrOf f "action"
      if a = "" ∨ a = "about:blank" then -1
      else if ¬ substr ctx.url a ∧ ¬ substr ctx.domain a then 0
      else 1

/-- 17. `InfoEmail`: "mailto:" occurs in the page text → -1, else 1
(including when there is no DOM at all). -/
def InfoEmail (ctx : Ctx) : Int :=
  match ctx.bundle.soup with
  | some roots => if substr "mailto:" (Node.textContentL roots) then -1 else 1
  | none => 1

/-- 18. `AbnormalURL`: response truthy, WHOIS record present and the body
text occurs inside `str(whois_response)` → 1, else -1. -/
def AbnormalURL (ctx : Ctx) : Int :=
  match ctx.bundle.response, ctx.bundle.whois with
  | some r, some w => if r.status < 400 ∧ substr r.text w.raw then 1 else -1
  | _, _ => -1

/-- 19. `WebsiteForwarding`: redirect history length of a truthy response:
at most 1 → 1, at most 4 → 0, else -1 (no or falsy response → -1). -/
def WebsiteForwarding (ctx : Ctx) : Int :=
  if respOk ctx.bundle.response ∧ (ctx.bundle.response.map Response.history).getD 0 ≤ 1 then 1
  else if respOk ctx.bundle.response ∧ (ctx.bundle.response.map Response.history).getD 0 ≤ 4 then 0
  else -1

/-- 20. `StatusBarCust`: `<script>.+onmouseover.+</script>` present in a
truthy response body → 1, else -1. -/
def StatusBarCust (ctx : Ctx) : Int :=
  match ctx.bundle.response with
  | some r => if r.status < 400 ∧ reScriptMouseover r.text then 1 else -1
  | none => -1

/-- 21. `DisableRightClick`: `event.button\s*==\s*2` present in a truthy
response body → 1, else -1. -/
def DisableRightClick (ctx : Ctx) : Int :=
  match ctx.bundle.response with
  | some r => if r.status < 400 ∧ reEventButton2 r.text then 1 else -1
  | none => -1

/-- 22. `UsingPopupWindow`: "alert(" present in a truthy response body →
1, else -1. -/
def UsingPopupWindow (ctx : Ctx) : Int :=
  match ctx.bundle.response with
  | some r => if r.status < 400 ∧ substr "alert(" r.text then 1 else -1
  | none => -1

/-- 23. `IframeRedirection`: "<iframe" or "<frameBorder" present in a
truthy response body → 1, else -1. -/
def IframeRedirection (ctx : Ctx) : Int :=
  match ctx.bundle.response with
  | some r => if r.status < 400 ∧ (substr "<iframe" r.text ∨ substr "<frameBorder" r.text)
      then 1 else -1
  | none => -1

/-- 24. `AgeofDomain`: months from WHOIS creation to `date.today()` at
least 6 → 1; missing record, missing date or raised access → -1. -/
def AgeofDomain (ctx : Ctx) : Int :=
  match ctx.bundle.whois with
  | none => -1
  | some w =>
    match w.creation.norm with
    | some c =>
      if (ctx.today.year - c.year) * 12 + (ctx.today.month - c.month) ≥ 6 then 1 else -1
    | none => -1

/-- 25. `DNSRecording`: literally reuses `AgeofDomain`. -/
def DNSRecording (ctx : Ctx) : Int :=
  AgeofDomain ctx

/-- 26. `WebsiteTraffic`: Alexa REACH rank below 100000 → 1, ranked but
not below → 0, no rank in the XML or any failure → -1. -/
def WebsiteTraffic (ctx : Ctx) : Int :=
  match ctx.bundle.alexa with
  | .error _ => -1
  | .ok none => -1
  | .ok (some rank) => if rank < 100000 then 1 else 0

/-- 27. `PageRank`: global rank strictly between 0 and 100000 → 1, else
-1 (also on missing match or failure). -/
def PageRank (ctx : Ctx) : Int :=
  match ctx.bundle.pagerank with
  | .error _ => -1
  | .ok none => -1
  | .ok (some r) => if 0 < r ∧ r < 100000 then 1 else -1

/-- 28. `GoogleIndex`: search results found → 1, none → -1, lookup raised
→ 1 (the asymmetric error default). -/
def GoogleIndex (ctx : Ctx) : Int :=
  match ctx.bundle.google with
  | .error _ => 1
  | .ok rs => if rs = [] then -1 else 1

/-- 29. `LinksPointingToPage`: count of `<a\s+href=` matches in a truthy
response body: 0 → 1, at most 2 → 0, else -1; no or falsy response → -1. -/
def LinksPointingToPage (ctx : Ctx) : Int :=
  match ctx.bundle.response with
  | some r =>
    if r.status < 400 then
      let c := countAHref r.text
      if c = 0 then 1 else if c ≤ 2 then 0 else -1
    else -1
  | none => -1

/-- The static URL blacklist of `StatsReport` (the regex is an alternation
of escaped literals, i.e. a substring test). -/
def statsUrlHit (url : String) : Bool :=
  substr "at.ua" url || substr "usa.cc" url || substr "baltazarpresentes.com.br" url ||
    substr "pe.hu" url || substr "esy.es" url || substr "hol.es" url ||
    substr "sweddy.com" url || substr "myjino.ru" url || substr "96.lt" url ||
    substr "ow.ly" url

/-- The static IP blacklist of `StatsReport`. -/
def statsIpHit (ip : String) : Bool :=
  substr "146.112.61.108" ip || substr "213.174.157.151" ip || substr "121.50.168.88" ip ||
    substr "192.185.217.116" ip || substr "78.46.211.158" ip || substr "181.174.165.13" ip ||
    substr "46.242.145.103" ip || substr "121.50.168.40" ip || substr "83.125.22.219" ip ||
    substr "46.242.145.98" ip || substr "107.151.148.44" ip || substr "107.151.148.107" ip

/-- 30. `StatsReport`: URL or resolved IP matches the static blacklist →
-1, no match → 1; a failed `gethostbyname` raises before the test, so any
lookup error → 1 (even when the URL pattern would have matched). -/
def StatsReport (ctx : Ctx) : Int :=
  match ctx.bundle.dns with
  | none => 1
  | some ip => if statsUrlHit ctx.url || statsIpHit ip then -1 else 1

/-- The 30 features in the exact append order of the constructor. -/
def getFeaturesList (ctx : Ctx) : List Int :=
  [UsingIp ctx, longUrl ctx, shortUrl ctx, symbol ctx, redirecting ctx,
   prefixSuffix ctx, SubDomains ctx, Https ctx, DomainRegLen ctx, Favicon ctx,
   NonStdPort ctx, HTTPSDomainURL ctx, RequestURL ctx, AnchorURL ctx,
   LinksInScriptTags ctx, ServerFormHandler ctx, InfoEmail ctx, AbnormalURL ctx,
   WebsiteForwarding ctx, StatusBarCust ctx, DisableRightClick ctx,
   UsingPopupWindow ctx, IframeRedirection ctx, AgeofDomain ctx, DNSRecording ctx,
   WebsiteTraffic ctx, PageRank ctx, GoogleIndex ctx, LinksPointingToPage ctx,
   StatsReport ctx]

/-- The 31-column vector handed to the classifier: the constant-0 "Index"
placeholder prepended to the 30 features (`np.hstack((dummy, features))`). -/
def classifierInput (ctx : Ctx) : List Int :=
  0 :: getFeaturesList ctx

/-- `fetch_url_details` status: DNS failure → "offline" before anything
else; a later failure → "error"; otherwise "online". -/
def fetchStatus (b : Bundle) : String :=
  match b.dns with
  | none => "offline"
  | some _ => if b.detailsError then "error" else "online"

/-- What the POST handler renders: the offline flag, the legitimacy
probability and label when classification ran, and whether the handler
fell into its error branch. -/
structure RenderResult where
  isOffline : Bool
  xx : Option ℚ
  prediction : Option Int
  errored : Bool
deriving DecidableEq

/-- The POST branch of `index`: fetch details, always extract features and
classify, and render — offline is a flagged full result, only a classifier
failure produces the error render. -/
def indexPost (model : List Int → Option (Int × ℚ)) (ctx : Ctx) : RenderResult :=
  let st := fetchStatus ctx.bundle
  match model (classifierInput ctx) with
  | none => ⟨false, none, none, true⟩
  | some pr => ⟨st = "offline", some pr.2, some pr.1, false⟩

/-- Modelled from the spec: the 30 indicators in the linear order in which
section 4.3 enumerates them (lexical, then domain/registration, then
content/DOM, then reputation), with the two port entries — which 4.3 marks
as the "same rule" — merged into the single port indicator of the code. -/
def spec43OrderList (ctx : Ctx) : List Int :=
  [UsingIp ctx, longUrl ctx, shortUrl ctx, symbol ctx, redirecting ctx,
   prefixSuffix ctx, SubDomains ctx, Https ctx, HTTPSDomainURL ctx, NonStdPort ctx,
   DomainRegLen ctx, AgeofDomain ctx, DNSRecording ctx, Favicon ctx, RequestURL ctx,
   AnchorURL ctx, LinksInScriptTags ctx, ServerFormHandler ctx, InfoEmail ctx,
   AbnormalURL ctx, WebsiteForwarding ctx, StatusBarCust ctx, DisableRightClick ctx,
   UsingPopupWindow ctx, IframeRedirection ctx, LinksPointingToPage ctx,
   WebsiteTraffic ctx, PageRank ctx, GoogleIndex ctx, StatsReport ctx]

/-- A bundle in which every fetch failed: no response, no DOM, no WHOIS
record, no DNS resolution, every third-party lookup raising. -/
def exBundle : Bundle :=
  ⟨none, none, none, none, .error (), .error (), .error (), false⟩

/-- A fixed evaluation date for concrete examples. -/
def exDate : PyDate := ⟨2026, 10⟩

/-- A URL of `n` copies of a single letter, for the length boundaries. -/
def urlOfLen (n : Nat) : String := String.mk (List.replicate n 'a')

def ctxLen (n : Nat) : Ctx := ⟨urlOfLen n, exBundle, exDate⟩

/-- A DOM whose only media resource points at the site itself. -/
def dom3 : Dom :=
  [.elem "html" [] [.elem "body" []
    [.elem "img" [("src", "http://example.com/logo.png")] []]]]

def ctx3 : Ctx := ⟨"http://example.com", { exBundle with soup := some dom3 }, exDate⟩

def ctx5 : Ctx := ⟨"http://unresolvable.example", exBundle, exDate⟩

def ctx6 : Ctx := ⟨"http://example.com", { exBundle with google := .ok ["hit"] }, exDate⟩

/-- A DOM with content but not a single anchor tag. -/
def dom7 : Dom := [.elem "html" [] [.elem "p" [] [.txt "hello"]]]

def ctx7 : Ctx := ⟨"http://example.com", { exBundle with soup := some dom7 }, exDate⟩

/-- A WHOIS record whose creation date sits 5 to 6 months before the two
dates of the determinism counterexample. -/
def w9 : WhoisRec := ⟨"", .one ⟨2025, 4⟩, .absent⟩

def b9 : Bundle := { exBundle with whois := some w9 }

def ctx9a : Ctx := ⟨"http://example.com", b9, ⟨2025, 10⟩⟩

def ctx9b : Ctx := ⟨"http://example.com", b9, ⟨2025, 9⟩⟩

/-- First form: same-site, nonempty, not about:blank. -/
def form10a : Node := .elem "form" [("action", "http://example.com/login")] []

/-- Second form: off-site — must be ignored. -/
def form10b : Node := .elem "form" [("action", "http://evil.example/steal")] []

def dom10 : Dom := [.elem "body" [] [form10a, form10b]]

def ctx10 : Ctx := ⟨"http://example.com", { exBundle with soup := some dom10 }, exDate⟩

lemma range_triThresh (lo hi v t : Nat) :
    triThresh lo hi v t = -1 ∨ triThresh lo hi v t = 0 ∨ triThresh lo hi v t = 1 := by
  unfold triThresh
  (repeat' split) <;> omega

lemma range_UsingIp (ctx : Ctx) :
    UsingIp ctx = -1 ∨ UsingIp ctx = 0 ∨ UsingIp ctx = 1 := by
  unfold UsingIp
  (repeat' split) <;> omega

lemma range_longUrl (ctx : Ctx) :
    longUrl ctx = -1 ∨ longUrl ctx = 0 ∨ longUrl ctx = 1 := by
  unfold longUrl
  (repeat' split) <;> omega

lemma range_shortUrl (ctx : Ctx) :
    shortUrl ctx = -1 ∨ shortUrl ctx = 0 ∨ shortUrl ctx = 1 := by
  unfold shortUrl
  (repeat' split) <;> omega

lemma range_symbol (ctx : Ctx) :
    symbol ctx = -1 ∨ symbol ctx = 0 ∨ symbol ctx = 1 := by
  unfold symbol
  (repeat' split) <;> omega

lemma range_redirecting (ctx : Ctx) :
    redirecting ctx = -1 ∨ redirecting ctx = 0 ∨ redirecting ctx = 1 := by
  unfold redirecting
  repeat' first
  | dsimp only
  | split
  all_goals omega

lemma range_prefixSuffix (ctx : Ctx) :
    prefixSuffix ctx = -1 ∨ prefixSuffix ctx = 0 ∨ prefixSuffix ctx = 1 := by
  unfold prefixSuffix
  (repeat' split) <;> omega

lemma range_SubDomains (ctx : Ctx) :
    SubDomains ctx = -1 ∨ SubDomains ctx = 0 ∨ SubDomains ctx = 1 := by
  unfold SubDomains
  repeat' first
  | dsimp only
  | split
  all_goals omega

lemma range_Https (ctx : Ctx) :
    Https ctx = -1 ∨ Https ctx = 0 ∨ Https ctx = 1 := by
  unfold Https
  (repeat' split) <;> omega

lemma range_DomainRegLen (ctx : Ctx) :
    DomainRegLen ctx = -1 ∨ DomainRegLen ctx = 0 ∨ DomainRegLen ctx = 1 := by
  unfold DomainRegLen
  (repeat' split) <;> omega

lemma range_Favicon (ctx : Ctx) :
    Favicon ctx = -1 ∨ Favicon ctx = 0 ∨ Favicon ctx = 1 := by
  unfold Favicon
  (repeat' split) <;> omega

lemma range_NonStdPort (ctx : Ctx) :
    NonStdPort ctx = -1 ∨ NonStdPort ctx = 0 ∨ NonStdPort ctx = 1 := by
  unfold NonStdPort
  (repeat' split) <;> omega

lemma range_HTTPSDomainURL (ctx : Ctx) :
    HTTPSDomainURL ctx = -1 ∨ HTTPSDomainURL ctx = 0 ∨ HTTPSDomainURL ctx = 1 := by
  unfold HTTPSDomainURL
  (repeat' split) <;> omega

lemma range_RequestURL (ctx : Ctx) :
    RequestURL ctx = -1 ∨ RequestURL ctx = 0 ∨ RequestURL ctx = 1 := by
  unfold RequestURL
  split
  · omega
  · exact range_triThresh _ _ _ _

lemma range_AnchorURL (ctx : Ctx) :
    AnchorURL ctx = -1 ∨ AnchorURL ctx = 0 ∨ AnchorURL ctx = 1 := by
  unfold AnchorURL
  split
  · omega
  · exact range_triThresh _ _ _ _

lemma range_LinksInScriptTags (ctx : Ctx) :
    LinksInScriptTags ctx = -1 ∨ LinksInScriptTags ctx = 0 ∨ LinksInScriptTags ctx = 1 := by
  unfold LinksInScriptTags
  split
  · omega
  · exact range_triThresh _ _ _ _

lemma range_ServerFormHandler (ctx : Ctx) :
    ServerFormHandler ctx = -1 ∨ ServerFormHandler ctx = 0 ∨ ServerFormHandler ctx = 1 := by
  unfold ServerFormHandler
  repeat' first
  | dsimp only
  | split
  all_goals omega

lemma range_InfoEmail (ctx : Ctx) :
    InfoEmail ctx = -1 ∨ InfoEmail ctx = 0 ∨ InfoEmail ctx = 1 := by
  unfold InfoEmail
  (repeat' split) <;> omega

lemma range_AbnormalURL (ctx : Ctx) :
    AbnormalURL ctx = -1 ∨ AbnormalURL ctx = 0 ∨ AbnormalURL ctx = 1 := by
  unfold AbnormalURL
  (repeat' split) <;> omega

lemma range_WebsiteForwarding (ctx : Ctx) :
    WebsiteForwarding ctx = -1 ∨ WebsiteForwarding ctx = 0 ∨ WebsiteForwarding ctx = 1 := by
  unfold WebsiteForwarding
  (repeat' split) <;> omega

lemma range_StatusBarCust (ctx : Ctx) :
    StatusBarCust ctx = -1 ∨ StatusBarCust ctx = 0 ∨ StatusBarCust ctx = 1 := by
  unfold StatusBarCust
  (repeat' split) <;> omega

lemma range_DisableRightClick (ctx : Ctx) :
    DisableRightClick ctx = -1 ∨ DisableRightClick ctx = 0 ∨ DisableRightClick ctx = 1 := by
  unfold DisableRightClick
  (repeat' split) <;> omega

lemma range_UsingPopupWindow (ctx : Ctx) :
    UsingPopupWindow ctx = -1 ∨ UsingPopupWindow ctx = 0 ∨ UsingPopupWindow ctx = 1 := by
  unfold UsingPopupWindow
  (repeat' split) <;> omega

lemma range_IframeRedirection (ctx : Ctx) :
    IframeRedirection ctx = -1 ∨ IframeRedirection ctx = 0 ∨ IframeRedirection ctx = 1 := by
  unfold IframeRedirection
  (repeat' split) <;> omega

lemma range_AgeofDomain (ctx : Ctx) :
    AgeofDomain ctx = -1 ∨ AgeofDomain ctx = 0 ∨ AgeofDomain ctx = 1 := by
  unfold AgeofDomain
  (repeat' split) <;> omega

lemma range_DNSRecording (ctx : Ctx) :
    DNSRecording ctx = -1 ∨ DNSRecording ctx = 0 ∨ DNSRecording ctx = 1 := by
  unfold DNSRecording
  exact range_AgeofDomain ctx

lemma range_WebsiteTraffic (ctx : Ctx) :
    WebsiteTraffic ctx = -1 ∨ WebsiteTraffic ctx = 0 ∨ WebsiteTraffic ctx = 1 := by
  unfold WebsiteTraffic
  (repeat' split) <;> omega

lemma range_PageRank (ctx : Ctx) :
    PageRank ctx = -1 ∨ PageRank ctx = 0 ∨ PageRank ctx = 1 := by
  unfold PageRank
  (repeat' split) <;> omega

lemma range_GoogleIndex (ctx : Ctx) :
    GoogleIndex ctx = -1 ∨ GoogleIndex ctx = 0 ∨ GoogleIndex ctx = 1 := by
  unfold GoogleIndex
  (repeat' split) <;> omega

lemma range_LinksPointingToPage (ctx : Ctx) :
    LinksPointingToPage ctx = -1 ∨ LinksPointingToPage ctx = 0 ∨ LinksPointingToPage ctx = 1 := by
  unfold LinksPointingToPage
  repeat' first
  | dsimp only
  | split
  all_goals omega

lemma range_StatsReport (ctx : Ctx) :
    StatsReport ctx = -1 ∨ StatsReport ctx = 0 ∨ StatsReport ctx = 1 := by
  unfold StatsReport
  (repeat' split) <;> omega

/-- C1: for every URL and every combination of fetch outcomes, each of the
30 indicator values is in {-1, 0, 1}; totality of the indicator functions
over the whole `Ctx` type is the embedding of "never raises past its own
boundary" (every `except` arm is one of the match/if branches). -/
theorem trinary_range_all_indicators (ctx : Ctx) (x : Int)
    (hx : x ∈ getFeaturesList ctx) : x = -1 ∨ x = 0 ∨ x = 1 := by
  simp only [getFeaturesList, List.mem_cons, List.not_mem_nil, or_false] at hx
  rcases hx with rfl | rfl | rfl | rfl | rfl | rfl | rfl | rfl | rfl | rfl | rfl | rfl | rfl |
    rfl | rfl | rfl | rfl | rfl | rfl | rfl | rfl | rfl | rfl | rfl | rfl | rfl | rfl | rfl |
    rfl | rfl
  · exact range_UsingIp ctx
  · exact range_longUrl ctx
  · exact range_shortUrl ctx
  · exact range_symbol ctx
  · exact range_redirecting ctx
  · exact range_prefixSuffix ctx
  · exact range_SubDomains ctx
  · exact range_Https ctx
  · exact range_DomainRegLen ctx
  · exact range_Favicon ctx
  · exact range_NonStdPort ctx
  · exact range_HTTPSDomainURL ctx
  · exact range_RequestURL ctx
  · exact range_AnchorURL ctx
  · exact range_LinksInScriptTags ctx
  · exact range_ServerFormHandler ctx
  · exact range_InfoEmail ctx
  · exact range_AbnormalURL ctx
  · exact range_WebsiteForwarding ctx
  · exact range_StatusBarCust ctx
  · exact range_DisableRightClick ctx
  · exact range_UsingPopupWindow ctx
  · exact range_IframeRedirection ctx
  · exact range_AgeofDomain ctx
  · exact range_DNSRecording ctx
  · exact range_WebsiteTraffic ctx
  · exact range_PageRank ctx
  · exact range_GoogleIndex ctx
  · exact range_LinksPointingToPage ctx
  · exact range_StatsReport ctx

/-- C1 witness: the range theorem applied to a concrete context and the
first entry of its feature list. -/
theorem trinary_range_all_indicators_witness :
    UsingIp ⟨"http://example.com", exBundle, exDate⟩ = -1 ∨
    UsingIp ⟨"http://example.com", exBundle, exDate⟩ = 0 ∨
    UsingIp ⟨"http://example.com", exBundle, exDate⟩ = 1 :=
  trinary_range_all_indicators ⟨"http://example.com", exBundle, exDate⟩ _
    (by simp [getFeaturesList])

/-- C2 counterexample: on a concrete input the feature list of the code is
NOT in the linear order in which spec section 4.3 enumerates the
indicators (e.g. slot 9 holds `DomainRegLen` in the code but
`HTTPSDomainURL` in the 4.3 enumeration). -/
theorem vector_order_spec43_counterexample :
    getFeaturesList ⟨"http://example.com", exBundle, exDate⟩ ≠
      spec43OrderList ⟨"http://example.com", exBundle, exDate⟩ := by
  decide

/-- C2 (amended): the feature list always has exactly 30 entries, in the
fixed order of the constructor's append sequence (which matches the
`column_names` schema of `app.py`, not the thematic enumeration order of
spec 4.3), and the classifier input is that list preceded by the constant
0 placeholder, 31 columns in total. -/
theorem vector_shape_fixed_order (ctx : Ctx) :
    getFeaturesList ctx =
      [UsingIp ctx, longUrl ctx, shortUrl ctx, symbol ctx, redirecting ctx,
       prefixSuffix ctx, SubDomains ctx, Https ctx, DomainRegLen ctx, Favicon ctx,
       NonStdPort ctx, HTTPSDomainURL ctx, RequestURL ctx, AnchorURL ctx,
       LinksInScriptTags ctx, ServerFormHandler ctx, InfoEmail ctx, AbnormalURL ctx,
       WebsiteForwarding ctx, StatusBarCust ctx, DisableRightClick ctx,
       UsingPopupWindow ctx, IframeRedirection ctx, AgeofDomain ctx, DNSRecording ctx,
       WebsiteTraffic ctx, PageRank ctx, GoogleIndex ctx, LinksPointingToPage ctx,
       StatsReport ctx] ∧
    (getFeaturesList ctx).length = 30 ∧
    classifierInput ctx = 0 :: getFeaturesList ctx ∧
    (classifierInput ctx).length = 31 ∧
    (classifierInput ctx).head? = some 0 :=
  ⟨rfl, rfl, rfl, rfl, rfl⟩

/-- C8: the long-URL indicator thresholds — below 60 characters gives 1,
60 to 100 gives 0, above 100 gives -1. -/
theorem longurl_thresholds (ctx : Ctx) :
    (ctx.url.length < 60 → longUrl ctx = 1) ∧
    (60 ≤ ctx.url.length → ctx.url.length ≤ 100 → longUrl ctx = 0) ∧
    (100 < ctx.url.length → longUrl ctx = -1) := by
  unfold longUrl
  refine ⟨fun h => if_pos h, fun h1 h2 => ?_, fun h => ?_⟩
  · rw [if_neg (by omega), if_pos h2]
  · rw [if_neg (by omega), if_neg (by omega)]

/-- C8 witness: the threshold theorem applied at URL lengths 59, 60, 100
and 101, yielding 1, 0, 0, -1. -/
theorem longurl_thresholds_witness :
    longUrl (ctxLen 59) = 1 ∧ longUrl (ctxLen 60) = 0 ∧
    longUrl (ctxLen 100) = 0 ∧ longUrl (ctxLen 101) = -1 :=
  ⟨(longurl_thresholds (ctxLen 59)).1 (by decide),
   (longurl_thresholds (ctxLen 60)).2.1 (by decide) (by decide),
   (longurl_thresholds (ctxLen 100)).2.1 (by decide) (by decide),
   (longurl_thresholds (ctxLen 101)).2.2 (by decide)⟩

/-- C9 counterexample: two runs with the identical URL and the identical
fetched evidence but different current dates (the clock is not part of the
fetched evidence) produce different feature vectors, because `AgeofDomain`
reads `date.today()`. -/
theorem determinism_today_counterexample :
    ctx9a.url = ctx9b.url ∧ ctx9a.bundle = ctx9b.bundle ∧
    getFeaturesList ctx9a ≠ getFeaturesList ctx9b :=
  ⟨rfl, rfl, by decide⟩

/-- C9 (amended): the pipeline is deterministic once the evaluation date
is fixed along with the URL record, the fetched evidence and the model:
equal full contexts give equal feature vectors and equal rendered results. -/
theorem determinism_with_date (c₁ c₂ : Ctx) (model : List Int → Option (Int × ℚ))
    (h : c₁ = c₂) :
    getFeaturesList c₁ = getFeaturesList c₂ ∧
    indexPost model c₁ = indexPost model c₂ := by
  subst h
  exact ⟨rfl, rfl⟩

/-- C9 witness: the determinism theorem applied to a concrete context and
a concrete model. -/
theorem determinism_with_date_witness :
    getFeaturesList ctx9a = getFeaturesList ctx9a ∧
    indexPost (fun _ => some (1, 1/2)) ctx9a = indexPost (fun _ => some (1, 1/2)) ctx9a :=
  determinism_with_date ctx9a ctx9a (fun _ => some (1, 1/2)) rfl

/-- C5: when DNS resolution of the domain fails (and with it the WHOIS
lookup for the unresolvable domain), the reported status is "offline",
`AgeofDomain` and `DomainRegLen` are -1, `StatsReport` falls back to +1
(the `gethostbyname` exception fires before the pattern test), and the
handler still renders a full classification result instead of aborting. -/
theorem dns_failure_degrades_gracefully (ctx : Ctx)
    (model : List Int → Option (Int × ℚ)) (pr : Int) (pb : ℚ)
    (hdns : ctx.bundle.dns = none) (hwho : ctx.bundle.whois = none)
    (hm : model (classifierInput ctx) = some (pr, pb)) :
    fetchStatus ctx.bundle = "offline" ∧
    AgeofDomain ctx = -1 ∧ DomainRegLen ctx = -1 ∧ StatsReport ctx = 1 ∧
    indexPost model ctx = ⟨true, some pb, some pr, false⟩ := by
  have hst : fetchStatus ctx.bundle = "offline" := by
    unfold fetchStatus; rw [hdns]
  refine ⟨hst, ?_, ?_, ?_, ?_⟩
  · unfold AgeofDomain; rw [hwho]
  · unfold DomainRegLen; rw [hwho]
  · unfold StatsReport; rw [hdns]
  · unfold indexPost; rw [hm, hst]; rfl

/-- C5 witness: the degradation theorem at a concrete context whose DNS
and WHOIS lookups failed, with a concrete classifier. -/
theorem dns_failure_degrades_gracefully_witness :
    fetchStatus ctx5.bundle = "offline" ∧
    AgeofDomain ctx5 = -1 ∧ DomainRegLen ctx5 = -1 ∧ StatsReport ctx5 = 1 ∧
    indexPost (fun _ => some (1, 1/2)) ctx5 = ⟨true, some (1/2), some 1, false⟩ :=
  dns_failure_degrades_gracefully ctx5 (fun _ => some (1, 1/2)) 1 (1/2) rfl rfl rfl

/-- C6: the search-index indicator returns 1 on nonempty results, -1 on
empty results, and 1 when the lookup itself raised — the asymmetric error
default. -/
theorem googleindex_error_default (ctx : Ctx) :
    (∀ rs, ctx.bundle.google = .ok rs → rs ≠ [] → GoogleIndex ctx = 1) ∧
    (ctx.bundle.google = .ok [] → GoogleIndex ctx = -1) ∧
    (∀ e, ctx.bundle.google = .error e → GoogleIndex ctx = 1) := by
  refine ⟨fun rs hg hne => ?_, fun hg => ?_, fun e hg => ?_⟩ <;>
    unfold GoogleIndex <;> rw [hg]
  · show (if rs = [] then (-1 : Int) else 1) = 1
    rw [if_neg hne]
  · show (if ([] : List String) = [] then (-1 : Int) else 1) = -1
    rw [if_pos rfl]

/-- C6 witness: the indicator theorem at a context whose lookup returned
one hit. -/
theorem googleindex_error_default_witness : GoogleIndex ctx6 = 1 :=
  (googleindex_error_default ctx6).1 ["hit"] rfl (by decide)

/-- C7: with a parsed DOM holding no `<a href>` at all, the anchor
indicator takes the zero-denominator path (0% unsafe, below 31%) and
returns 1, not the no-DOM fallback -1. -/
theorem anchor_zero_tags_benign (ctx : Ctx) (roots : Dom)
    (hs : ctx.bundle.soup = some roots)
    (ha : Node.findAllL "a" (some "href") roots = []) :
    AnchorURL ctx = 1 := by
  unfold AnchorURL
  rw [hs]
  simp only [ha, List.countP_nil, List.length_nil]
  rfl

/-- C7 witness: the zero-anchor theorem at a concrete DOM that has
content but not a single anchor. -/
theorem anchor_zero_tags_benign_witness : AnchorURL ctx7 = 1 :=
  anchor_zero_tags_benign ctx7 dom7 rfl rfl

/-- C10: the form-action indicator is decided by the first `<form>` with
an `action` attribute alone — when that action is nonempty, not
"about:blank" and contains the URL or the domain, the result is 1
whatever the remaining forms contain. -/
theorem formhandler_first_form_decides (ctx : Ctx) (roots : Dom) (f : Node)
    (rest : List Node)
    (hs : ctx.bundle.soup = some roots)
    (hf : Node.findAllL "form" (some "action") roots = f :: rest)
    (hne : attrOf f "action" ≠ "")
    (hnb : attrOf f "action" ≠ "about:blank")
    (hsite : substr ctx.url (attrOf f "action") = true ∨
      substr ctx.domain (attrOf f "action") = true) :
    ServerFormHandler ctx = 1 := by
  unfold ServerFormHandler
  rw [hs]
  simp only [hf]
  rw [if_neg (by simp [hne, hnb])]
  rw [if_neg (by rcases hsite with h | h <;> simp [h])]

/-- C10 witness: the first-form theorem on a DOM whose first form posts to
the site itself while the second posts off-site. -/
theorem formhandler_first_form_decides_witness : ServerFormHandler ctx10 = 1 :=
  formhandler_first_form_decides ctx10 dom10 form10a [form10b] rfl rfl
    (by decide) (by decide) (Or.inl (by decide))

lemma pctLt_iff_rat (v t k : Nat) (ht : t ≠ 0) :
    pctLt v t k = true ↔ (v : ℚ) / (t : ℚ) * 100 < (k : ℚ) := by
  unfold pctLt
  rw [if_neg ht, decide_eq_true_iff]
  rw [div_mul_eq_mul_div, div_lt_iff₀ (by exact_mod_cast Nat.pos_of_ne_zero ht)]
  exact_mod_cast Iff.rfl

/-- C3 counterexample: a present DOM whose single media resource is
on-site has an off-site fraction of 0% (below 22%), yet `RequestURL`
returns -1 — the code measures the on-site share, not the off-site one. -/
theorem requesturl_offsite_counterexample :
    (ctx3.bundle.soup).isSome = true ∧
    offSiteCount ctx3 "src" (srcMediaElems dom3) = 0 ∧
    (srcMediaElems dom3).length = 1 ∧
    RequestURL ctx3 = -1 := by
  decide

/-- C3 (amended): `RequestURL` grades the fraction of media resources
whose `src` contains the URL or the domain (the on-site share): below 22%
gives 1, at least 22% and below 61% gives 0, otherwise -1; an absent DOM
gives -1, and zero matching tags fall into the 0%-so-1 branch. -/
theorem requesturl_onsite_ratio (ctx : Ctx) :
    (ctx.bundle.soup = none → RequestURL ctx = -1) ∧
    (∀ roots, ctx.bundle.soup = some roots → srcMediaElems roots = [] →
      RequestURL ctx = 1) ∧
    (∀ roots, ctx.bundle.soup = some roots → srcMediaElems roots ≠ [] →
      RequestURL ctx =
        if (onSiteCount ctx "src" (srcMediaElems roots) : ℚ) /
            ((srcMediaElems roots).length : ℚ) * 100 < 22 then 1
        else if (onSiteCount ctx "src" (srcMediaElems roots) : ℚ) /
            ((srcMediaElems roots).length : ℚ) * 100 < 61 then 0
        else -1) := by
  refine ⟨fun hs => ?_, fun roots hs he => ?_, fun roots hs hne => ?_⟩
  · unfold RequestURL; rw [hs]
  · unfold RequestURL; rw [hs]
    dsimp only
    rw [he]
    rfl
  · unfold RequestURL; rw [hs]
    dsimp only
    have ht : (srcMediaElems roots).length ≠ 0 := by
      simpa [List.length_eq_zero] using hne
    unfold triThresh
    by_cases h22 : (onSiteCount ctx "src" (srcMediaElems roots) : ℚ) /
        ((srcMediaElems roots).length : ℚ) * 100 < 22
    · rw [if_pos ((pctLt_iff_rat _ _ 22 ht).mpr (by exact_mod_cast h22)), if_pos h22]
    · rw [if_neg (fun hb => h22 (by exact_mod_cast (pctLt_iff_rat _ _ 22 ht).mp hb)),
        if_neg h22]
      by_cases h61 : (onSiteCount ctx "src" (srcMediaElems roots) : ℚ) /
          ((srcMediaElems roots).length : ℚ) * 100 < 61
      · rw [if_pos ((pctLt_iff_rat _ _ 61 ht).mpr (by exact_mod_cast h61)), if_pos h61]
      · rw [if_neg (fun hb => h61 (by exact_mod_cast (pctLt_iff_rat _ _ 61 ht).mp hb)),
          if_neg h61]

/-- C3 witness: the amended ratio theorem applied to the concrete one-
image DOM (on-site share 100%, so the -1 branch). -/
theorem requesturl_onsite_ratio_witness :
    RequestURL ctx3 =
      if (onSiteCount ctx3 "src" (srcMediaElems dom3) : ℚ) /
          ((srcMediaElems dom3).length : ℚ) * 100 < 22 then 1
      else if (onSiteCount ctx3 "src" (srcMediaElems dom3) : ℚ) /
          ((srcMediaElems dom3).length : ℚ) * 100 < 61 then 0
      else -1 :=
  (requesturl_onsite_ratio ctx3).2.2 dom3 rfl (by
    intro h
    have hlen : (srcMediaElems dom3).length = 0 := by rw [h]; rfl
    exact absurd hlen (by decide))

lemma takeWhile_all (p : Char → Bool) :
    ∀ l : List Char, (∀ c ∈ l, p c = true) → l.takeWhile p = l := by
  intro l
  induction l with
  | nil => intro _; rfl
  | cons c cs ih =>
    intro h
    have hc := h c (List.mem_cons_self c cs)
    have hrest := ih (fun x hx => h x (List.mem_cons_of_mem c hx))
    simp [List.takeWhile_cons, hc, hrest]

lemma splitOnC_ne_nil (sep : Char) (l : List Char) : splitOnC sep l ≠ [] := by
  induction l with
  | nil => simp [splitOnC]
  | cons c cs ih =>
    unfold splitOnC
    split
    · simp
    · split <;> simp

lemma splitOnC_mem (sep x : Char) (hx : x ≠ sep) :
    ∀ l : List Char, x ∈ l → ∃ p ∈ splitOnC sep l, x ∈ p := by
  intro l
  induction l with
  | nil => simp
  | cons c cs ih =>
    intro hmem
    unfold splitOnC
    rcases List.mem_cons.mp hmem with rfl | hcs
    · rw [if_neg hx]
      cases hsp : splitOnC sep cs with
      | nil => exact absurd hsp (splitOnC_ne_nil sep cs)
      | cons p ps => exact ⟨x :: p, List.mem_cons_self _ _, List.mem_cons_self _ _⟩
    · rcases ih hcs with ⟨p, hp, hxp⟩
      by_cases hc : c = sep
      · rw [if_pos hc]
        exact ⟨p, List.mem_cons_of_mem _ hp, hxp⟩
      · rw [if_neg hc]
        cases hsp : splitOnC sep cs with
        | nil => exact absurd hsp (splitOnC_ne_nil sep cs)
        | cons q qs =>
          rw [hsp] at hp
          rcases List.mem_cons.mp hp with rfl | hq
          · exact ⟨c :: p, List.mem_cons_self _ _, List.mem_cons_of_mem _ hxp⟩
          · exact ⟨p, List.mem_cons_of_mem _ hq, hxp⟩

lemma parsePart_no_colon {cs : List Char} {v : Nat} (h : parsePart cs = some v) :
    ':' ∉ cs := by
  intro hmem
  unfold parsePart at h
  split at h
  · split at h
    · rename_i hcond
      rcases List.mem_cons.mp hmem with h0 | hmem2
      · exact absurd h0 (by decide)
      · rcases List.mem_cons.mp hmem2 with h1 | hrest
        · exact absurd h1 (by decide)
        · exact absurd (List.all_eq_true.mp hcond.2 _ hrest) (by decide)
    · exact Option.noConfusion h
  · split at h
    · rename_i hcond
      rcases List.mem_cons.mp hmem with h0 | hmem2
      · exact absurd h0 (by decide)
      · rcases List.mem_cons.mp hmem2 with h1 | hrest
        · exact absurd h1 (by decide)
        · exact absurd (List.all_eq_true.mp hcond.2 _ hrest) (by decide)
    · exact Option.noConfusion h
  · split at h
    · rename_i hcond
      rcases List.mem_cons.mp hmem with h0 | hrest
      · exact absurd h0 (by decide)
      · exact absurd (List.all_eq_true.mp hcond _ hrest) (by decide)
    · exact Option.noConfusion h
  · split at h
    · rename_i hcond
      exact absurd (List.all_eq_true.mp hcond.2 _ hmem) (by decide)
    · exact Option.noConfusion h

lemma parseParts_mem {ps : List (List Char)} {vs : List Nat} {p : List Char}
    (h : parseParts ps = some vs) (hp : p ∈ ps) : ∃ v, parsePart p = some v := by
  induction ps generalizing vs with
  | nil => exact absurd hp (List.not_mem_nil p)
  | cons q qs ih =>
    unfold parseParts at h
    rcases List.mem_cons.mp hp with rfl | hq
    · cases hq2 : parsePart p with
      | none => rw [hq2] at h; exact Option.noConfusion h
      | some v => exact ⟨v, rfl⟩
    · cases hq2 : parsePart q with
      | none => rw [hq2] at h; exact Option.noConfusion h
      | some v =>
        rw [hq2] at h
        cases hqs : parseParts qs with
        | none => rw [hqs] at h; exact Option.noConfusion h
        | some ws => exact ih hqs hq

lemma inetAton_no_colon (s : String) (hsp : ∀ c ∈ s.toList, isPySpace c = false)
    (hc : ':' ∈ s.toList) : inetAtonOk s = false := by
  have hcore : s.toList.takeWhile (fun c => !isPySpace c) = s.toList :=
    takeWhile_all _ s.toList (fun c hmem => by rw [hsp c hmem]; rfl)
  rcases splitOnC_mem '.' ':' (by decide) s.toList hc with ⟨p, hp, hin⟩
  unfold inetAtonOk
  simp only [hcore]
  cases hpp : parseParts (splitOnC '.' s.toList) with
  | none => rfl
  | some vals =>
    rcases parseParts_mem hpp hp with ⟨v, hv⟩
    exact absurd hin (parsePart_no_colon hv)

/-- C4 (amended): `UsingIp` applies `inet_aton` to the whole URL string,
not to the host: it returns -1 exactly when the full string is an IPv4
numeral, and for any whitespace-free URL containing a colon — every URL
written with an explicit scheme — it returns 1 even when the host part is
a raw IP address. -/
theorem usingip_whole_url_string (ctx : Ctx) :
    (UsingIp ctx = -1 ↔ inetAtonOk ctx.url = true) ∧
    ((∀ c ∈ ctx.url.toList, isPySpace c = false) → ':' ∈ ctx.url.toList →
      UsingIp ctx = 1) := by
  constructor
  · unfold UsingIp
    by_cases hA : inetAtonOk ctx.url = true
    · simp [hA]
    · simp [hA]
  · intro hsp hc
    unfold UsingIp
    simp [inetAton_no_colon ctx.url hsp hc]

/-- C4 witness: the amended theorem applied to a scheme-carrying URL,
forcing the indicator to 1. -/
theorem usingip_whole_url_string_witness :
    UsingIp ⟨"http://125.98.3.114", exBundle, exDate⟩ = 1 :=
  (usingip_whole_url_string ⟨"http://125.98.3.114", exBundle, exDate⟩).2
    (by decide) (by decide)

/-- C4 counterexample: for the URL "http://125.98.3.114" the parsed host
is the raw IPv4 address "125.98.3.114" (which `inet_aton` accepts), yet
`UsingIp` returns 1 instead of the claimed -1, because the code feeds the
whole URL string to `inet_aton`. -/
theorem usingip_host_counterexample :
    Ctx.domain ⟨"http://125.98.3.114", exBundle, exDate⟩ = "125.98.3.114" ∧
    inetAtonOk "125.98.3.114" = true ∧
    UsingIp ⟨"http://125.98.3.114", exBundle, exDate⟩ = 1 := by
  decide
